import Mathlib

/-!
Shallow embedding of the two scripts of this repository,
`openai_with_google_search.py` (CLI variant) and `prac.py` (Streamlit UI
variant), together with proofs of the behavioural properties stated in the
specification.  External effects (the sidecar HTTP service, the hosted
chat-completion API, `json.loads`) are modelled as oracles supplied in an
environment record; every outbound call is recorded in an event log so that
call counts, call ordering and call payloads can be reasoned about.
-/

/-- JSON values, as produced by `response.json()` / consumed by `json.dumps`.
Numeric JSON values are modelled as integers (no float appears in any
payload the scripts construct). -/
inductive Json where
  | null : Json
  | bool : Bool → Json
  | num : Int → Json
  | str : String → Json
  | arr : List Json → Json
  | obj : List (String × Json) → Json
deriving Repr

/-- One hexadecimal digit, used for the `\u00XX` escapes of `json.dumps`. -/
def hexDigit (n : Nat) : String :=
  if n < 10 then toString n
  else if n = 10 then "a" else if n = 11 then "b" else if n = 12 then "c"
  else if n = 13 then "d" else if n = 14 then "e" else "f"

/-- Escape one character the way Python `json.dumps(..., ensure_ascii=False)`
does: `"` and `\` are backslash-escaped, control characters use short or
`\u00XX` escapes, everything else (including non-ASCII) passes through. -/
def jsonEscapeChar (c : Char) : String :=
  if c = '\x22' then "\\\x22"
  else if c = '\\' then "\\\\"
  else if c = '\n' then "\\n"
  else if c = '\t' then "\\t"
  else if c = '\x0d' then "\\r"
  else if c.toNat < 32 then
    "\\u00" ++ hexDigit (c.toNat / 16) ++ hexDigit (c.toNat % 16)
  else String.singleton c

/-- Serialization of a JSON string literal, as `json.dumps` renders it. -/
def jsonDumpString (s : String) : String :=
  "\x22" ++ String.join (s.toList.map jsonEscapeChar) ++ "\x22"

mutual
/-- Python `json.dumps(v, ensure_ascii=False)` with the default separators
(`", "` between items, `": "` after keys). -/
def dumps : Json → String
  | Json.null => "null"
  | Json.bool true => "true"
  | Json.bool false => "false"
  | Json.num n => toString n
  | Json.str s => jsonDumpString s
  | Json.arr xs => "[" ++ dumpsArr xs ++ "]"
  | Json.obj kvs => "\x7b" ++ dumpsObj kvs ++ "\x7d"

/-- Comma-separated serialization of a JSON array body. -/
def dumpsArr : List Json → String
  | [] => ""
  | [x] => dumps x
  | x :: y :: xs => dumps x ++ ", " ++ dumpsArr (y :: xs)

/-- Comma-separated serialization of a JSON object body. -/
def dumpsObj : List (String × Json) → String
  | [] => ""
  | [(k, v)] => jsonDumpString k ++ ": " ++ dumps v
  | (k, v) :: kv :: kvs => jsonDumpString k ++ ": " ++ dumps v ++ ", " ++ dumpsObj (kv :: kvs)
end

/-- Python exception values, distinguished by class and message.  The classes
named by the specification but defined nowhere in the repository
(`ToolCatalogError`, `ToolInvocationError`) are included so that their
absence from the code's behaviour can be stated. -/
inductive PyExc where
  | Exception : String → PyExc
  | JSONDecodeError : String → PyExc
  | HTTPError : String → PyExc
  | KeyError : String → PyExc
  | IndexError : String → PyExc
  | TypeError : String → PyExc
  | AttributeError : String → PyExc
  | ToolCatalogError : String → PyExc
  | ToolInvocationError : String → PyExc
deriving Repr, DecidableEq

/-- Python `str(e)` on an exception: the message, except that `KeyError`
renders its key in quotes. -/
def PyExc.pyMessage : PyExc → String
  | .Exception m => m
  | .JSONDecodeError m => m
  | .HTTPError m => m
  | .KeyError k => "\x27" ++ k ++ "\x27"
  | .IndexError m => m
  | .TypeError m => m
  | .AttributeError m => m
  | .ToolCatalogError m => m
  | .ToolInvocationError m => m

/-- Whether an exception value is a `ToolCatalogError`. -/
def PyExc.isToolCatalogError : PyExc → Bool
  | .ToolCatalogError _ => true
  | _ => false

/-- Whether an exception value is a `ToolInvocationError`. -/
def PyExc.isToolInvocationError : PyExc → Bool
  | .ToolInvocationError _ => true
  | _ => false

/-- Whether a computation raised (any) exception. -/
def raised {α : Type} : Except PyExc α → Bool
  | .error _ => true
  | .ok _ => false

/-- Whether a computation raised a `ToolCatalogError`. -/
def raisedToolCatalogError {α : Type} : Except PyExc α → Bool
  | .error e => e.isToolCatalogError
  | .ok _ => false

/-- Whether a computation raised a `ToolInvocationError`. -/
def raisedToolInvocationError {α : Type} : Except PyExc α → Bool
  | .error e => e.isToolInvocationError
  | .ok _ => false

/-- Python `str.lower()` restricted to ASCII case mapping (all strings the
script compares case-insensitively are ASCII). -/
def pyLower (s : String) : String :=
  String.mk (s.data.map Char.toLower)

/-- Python `str.startswith(pre)`. -/
def pyStartsWith (s pre : String) : Bool :=
  pre.data.isPrefixOf s.data

/-- Python slicing `s[i:]` for a non-negative index, counted in
characters. -/
def pySlice (s : String) (i : Nat) : String :=
  String.mk (s.data.drop i)

/-- Python `str.strip()` with no argument: remove leading and trailing
whitespace. -/
def pyStrip (s : String) : String :=
  String.mk (((s.data.dropWhile Char.isWhitespace).reverse.dropWhile
    Char.isWhitespace).reverse)

/-- An HTTP response from the sidecar, as the `requests` library presents
it: status code, raw body text, and the result of decoding the body as JSON
(`Except.error` when `.json()` would raise a `JSONDecodeError`). -/
structure HttpResponse where
  status_code : Nat
  text : String
  jsonBody : Except String Json
deriving Repr

/-- Python `response.json()`: the decoded body, or a raised `JSONDecodeError`. -/
def HttpResponse.json (r : HttpResponse) : Except PyExc Json :=
  match r.jsonBody with
  | .ok j => .ok j
  | .error m => .error (.JSONDecodeError m)

/-- A tool call emitted by the model: id, function name, and the
JSON-encoded argument string (`tool_call.function.arguments`). -/
structure ToolCallReq where
  id : String
  function_name : String
  function_arguments : String
deriving Repr, DecidableEq

/-- A transcript message as the CLI script builds it: `role`, `content`
(possibly `None`), and the optional `tool_calls` / `tool_call_id` keys. -/
structure Message where
  role : String
  content : Option String
  tool_calls : Option (List ToolCallReq)
  tool_call_id : Option String
deriving Repr, DecidableEq

/-- The message returned in `response.choices[0].message` by the chat API.
`tool_calls = []` models Python's `None` as well: the script only tests the
field for truthiness and iterates over it, which cannot distinguish the
two. -/
structure ChatMsg where
  content : Option String
  tool_calls : List ToolCallReq
deriving Repr, DecidableEq

/-- A request to `client.chat.completions.create` in the CLI variant:
model id, message list, and the optional `tools` / `tool_choice`
parameters. -/
structure ChatRequest where
  model : String
  messages : List Message
  tools : Option Json
  tool_choice : Option String
deriving Repr

/-- One outbound call performed by the CLI script. -/
inductive Event where
  | sidecarGet : String → Event
  | sidecarPost : (url : String) → (name : String) → (arguments : Json) → Event
  | chatCall : ChatRequest → Event
deriving Repr

/-- Whether an event is a chat-completion API call. -/
def Event.isChatCall : Event → Bool
  | .chatCall _ => true
  | _ => false

/-- Whether an event is a sidecar tool invocation (`POST /openai/run`). -/
def Event.isSidecarPost : Event → Bool
  | .sidecarPost _ _ _ => true
  | _ => false

/-- The oracles for the CLI script's external world: the sidecar's response
to `GET /openai/tools`, its response to `POST /openai/run` as a function of
the posted name and arguments, the chat API's response (which may raise) as
a function of the full request, and `json.loads` on argument strings
(`Except.error` models a raised `JSONDecodeError`). -/
structure Env where
  toolsResp : HttpResponse
  runResp : String → Json → HttpResponse
  chat : ChatRequest → Except PyExc ChatMsg
  jsonLoads : String → Except String Json

/-- Constant `MCP_SERVER_URL` of the CLI script. -/
def MCP_SERVER_URL : String := "http://127.0.0.1:3030"

/-- Message of the exception raised when the tool catalog fetch fails,
up to the interpolated response body. -/
def catalogErrorPrefix : String := "도구 정의를 가져오는 데 실패했습니다: "

/-- Message of the exception raised when the tool run fails, up to the
interpolated response body. -/
def runErrorPrefix : String := "도구 실행에 실패했습니다: "

/-- Function `get_search_tool_definition()` of `openai_with_google_search.py`:
`GET {MCP_SERVER_URL}/openai/tools`; raise on a status other than 200 with
the body text in the message, otherwise return the decoded JSON.  The
second component is the log of outbound calls. -/
def get_search_tool_definition (env : Env) : Except PyExc Json × List Event :=
  let response := env.toolsResp
  let events := [Event.sidecarGet (MCP_SERVER_URL ++ "/openai/tools")]
  if response.status_code ≠ 200 then
    (.error (.Exception (catalogErrorPrefix ++ response.text)), events)
  else
    (response.json, events)

/-- Function `run_search_tool(name, arguments)` of `openai_with_google_search.py`:
`POST {MCP_SERVER_URL}/openai/run` with body `{name, arguments}`; raise on a
status other than 200 with the body text in the message, otherwise return
the decoded JSON. -/
def run_search_tool (env : Env) (name : String) (arguments : Json) :
    Except PyExc Json × List Event :=
  let response := env.runResp name arguments
  let events := [Event.sidecarPost (MCP_SERVER_URL ++ "/openai/run") name arguments]
  if response.status_code ≠ 200 then
    (.error (.Exception (runErrorPrefix ++ response.text)), events)
  else
    (response.json, events)

/-- The system prompt both chat calls of the CLI script use. -/
def system_prompt : String :=
  "당신은 웹 검색이 가능한 도우미입니다. 사용자의 질문에 답변하기 위해 필요하다면 웹 검색을 사용하세요."

/-- The system message dict of the CLI script. -/
def system_message : Message :=
  { role := "system", content := some system_prompt, tool_calls := none, tool_call_id := none }

/-- The user message dict of the CLI script. -/
def user_message_of (user_message : String) : Message :=
  { role := "user", content := some user_message, tool_calls := none, tool_call_id := none }

/-- The assistant message dict carrying the model's tool calls
(`content = None`). -/
def assistant_tool_message (tcs : List ToolCallReq) : Message :=
  { role := "assistant", content := none, tool_calls := some tcs, tool_call_id := none }

/-- The tool-role message dict appended for one executed tool call:
keyed by the originating call id, content the serialized tool response. -/
def tool_result_message (tool_call_id : String) (content : String) : Message :=
  { role := "tool", content := some content, tool_calls := none,
    tool_call_id := some tool_call_id }

/-- The first chat request of `chat_with_tools`: system and user message,
the fetched tool catalog, `tool_choice="auto"`. -/
def first_request (tools : Json) (user_message : String) : ChatRequest :=
  { model := "gpt-4o",
    messages := [system_message, user_message_of user_message],
    tools := some tools,
    tool_choice := some "auto" }

/-- The second chat request of `chat_with_tools`: the accumulated message
list, no `tools`, no `tool_choice`. -/
def second_request (messages : List Message) : ChatRequest :=
  { model := "gpt-4o", messages := messages, tools := none, tool_choice := none }

/-- The `for tool_call in message.tool_calls` loop of `chat_with_tools`:
parse each call's arguments with `json.loads`, execute it via
`run_search_tool`, and append the tool-role result message (content
`json.dumps(function_response, ensure_ascii=False)`).  Exceptions abort the
loop exactly where Python would raise. -/
def run_tool_calls (env : Env) : List ToolCallReq → List Message → List Event →
    Except PyExc (List Message) × List Event
  | [], messages, events => (.ok messages, events)
  | tc :: rest, messages, events =>
    match env.jsonLoads tc.function_arguments with
    | .error m => (.error (.JSONDecodeError m), events)
    | .ok function_args =>
      match run_search_tool env tc.function_name function_args with
      | (.error e, evs) => (.error e, events ++ evs)
      | (.ok function_response, evs) =>
        run_tool_calls env rest
          (messages ++ [tool_result_message tc.id (dumps function_response)])
          (events ++ evs)

/-- Function `chat_with_tools(user_message)` of `openai_with_google_search.py`:
fetch the catalog, make the first chat call with tools offered; if the
response has no tool calls return its content, otherwise rebuild the
transcript as system, user, assistant(tool_calls), run every tool call
appending its tool-role result, and return the content of a second chat
call made without tools. -/
def chat_with_tools (env : Env) (user_message : String) :
    Except PyExc (Option String) × List Event :=
  match get_search_tool_definition env with
  | (.error e, ev) => (.error e, ev)
  | (.ok tools, ev0) =>
    let req1 := first_request tools user_message
    let ev1 := ev0 ++ [Event.chatCall req1]
    match env.chat req1 with
    | .error e => (.error e, ev1)
    | .ok message =>
      if message.tool_calls.isEmpty then
        (.ok message.content, ev1)
      else
        let messages := [system_message, user_message_of user_message,
                         assistant_tool_message message.tool_calls]
        match run_tool_calls env message.tool_calls messages ev1 with
        | (.error e, ev) => (.error e, ev)
        | (.ok messages2, ev2) =>
          let req2 := second_request messages2
          let ev3 := ev2 ++ [Event.chatCall req2]
          match env.chat req2 with
          | .error e => (.error e, ev3)
          | .ok second_message => (.ok second_message.content, ev3)

/-- Python `print(x)` on the value `chat_with_tools` returns: `None` prints
as the text `None`. -/
def pyPrintOpt : Option String → String
  | none => "None"
  | some s => s

/-- The body of one REPL iteration after the exit check: the lines printed
for the turn (`try`: the answer; `except`: the error message). -/
def turn_output (env : Env) (user_input : String) : List String :=
  match (chat_with_tools env user_input).fst with
  | .ok response => ["\n응답:", pyPrintOpt response]
  | .error e => ["\n오류: " ++ e.pyMessage]

/-- The `while True` loop of `main()` in the CLI script, run over a script
of stdin lines: stop at the first line whose lowercasing is `exit` or
`quit`, otherwise emit the turn's output and continue.  The banner and the
input prompt are not modelled; the result is the list of printed lines. -/
def main_loop (env : Env) : List String → List String
  | [] => []
  | line :: rest =>
    if ["exit", "quit"].contains (pyLower line) then []
    else turn_output env line ++ main_loop env rest

/-! ### UI variant (`prac.py`) -/

/-- Python truthiness of a JSON-decoded value (`if result.get(...)`). -/
def pyTruthy : Json → Bool
  | Json.null => false
  | Json.bool b => b
  | Json.num n => n ≠ 0
  | Json.str s => s ≠ ""
  | Json.arr xs => !xs.isEmpty
  | Json.obj kvs => !kvs.isEmpty

mutual
/-- Python `repr()` of a JSON-decoded value (strings in single quotes,
`True`/`False`/`None`; exercised only through f-string interpolation of
non-string values). -/
def pyRepr : Json → String
  | Json.null => "None"
  | Json.bool true => "True"
  | Json.bool false => "False"
  | Json.num n => toString n
  | Json.str s => "\x27" ++ s ++ "\x27"
  | Json.arr xs => "[" ++ pyReprArr xs ++ "]"
  | Json.obj kvs => "\x7b" ++ pyReprObj kvs ++ "\x7d"

/-- Comma-separated `repr` of a list body. -/
def pyReprArr : List Json → String
  | [] => ""
  | [x] => pyRepr x
  | x :: y :: xs => pyRepr x ++ ", " ++ pyReprArr (y :: xs)

/-- Comma-separated `repr` of a dict body. -/
def pyReprObj : List (String × Json) → String
  | [] => ""
  | [(k, v)] => "\x27" ++ k ++ "\x27: " ++ pyRepr v
  | (k, v) :: kv :: kvs => "\x27" ++ k ++ "\x27: " ++ pyRepr v ++ ", " ++ pyReprObj (kv :: kvs)
end

/-- Python `str()` of a JSON-decoded value, as f-string interpolation
applies it: a string passes through unquoted, everything else uses
`repr`-style rendering. -/
def pyStr : Json → String
  | Json.str s => s
  | j => pyRepr j

/-- Python `d.get(key, default)` on a JSON-decoded value: `AttributeError`
when the value is not a dict (JSON object keys are assumed unique, as
`json` decoding guarantees). -/
def pyDictGet (j : Json) (key : String) (dflt : Json) : Except PyExc Json :=
  match j with
  | Json.obj kvs => .ok ((kvs.lookup key).getD dflt)
  | _ => .error (.AttributeError ("object has no attribute " ++ "\x27get\x27"))

/-- Python `v[key]` for a string key: `KeyError` when missing, `TypeError`
when the value is not a dict. -/
def pySubscriptKey (j : Json) (key : String) : Except PyExc Json :=
  match j with
  | Json.obj kvs =>
    match kvs.lookup key with
    | some v => .ok v
    | none => .error (.KeyError key)
  | _ => .error (.TypeError "object is not subscriptable by a string key")

/-- Python `v[i]` for a non-negative integer index: list and string
indexing, `IndexError` past the end, `TypeError` otherwise. -/
def pySubscriptIdx (j : Json) (i : Nat) : Except PyExc Json :=
  match j with
  | Json.arr xs =>
    match xs.get? i with
    | some v => .ok v
    | none => .error (.IndexError "list index out of range")
  | Json.str s =>
    match s.toList.get? i with
    | some c => .ok (Json.str (String.singleton c))
    | none => .error (.IndexError "string index out of range")
  | _ => .error (.TypeError "object is not subscriptable")

/-- Lookup chain `result["content"][0]["text"]` of
`google_search_mcp`. -/
def resultText (result : Json) : Except PyExc Json :=
  match pySubscriptKey result "content" with
  | .error e => .error e
  | .ok content =>
    match pySubscriptIdx content 0 with
    | .error e => .error e
    | .ok item => pySubscriptKey item "text"

/-- A message of the UI transcript (`st.session_state.messages`): role and
content.  Content is a dynamically typed Python value (modelled as `Json`):
user prompts are strings, assistant content is whatever the producing code
path returned. -/
structure UiMessage where
  role : String
  content : Json
deriving Repr

/-- One outbound call performed by the UI script: a `POST /tools/call` with
its JSON body, or a chat-completion call recording the api key of the
module-level client together with the model id and message list. -/
inductive UiEvent where
  | toolsCallPost : Json → UiEvent
  | chatCall : (api_key : Option String) → (model : String) →
      (messages : List UiMessage) → UiEvent
deriving Repr

/-- Whether a UI event is a chat-completion API call. -/
def UiEvent.isChatCall : UiEvent → Bool
  | .chatCall _ _ _ => true
  | _ => false

/-- The oracles for the UI script's external world: the sidecar's behaviour
on `POST /tools/call` (which may raise, as `requests.post` can before a
response exists), and the chat API's behaviour given the client's api key,
the model id and the messages (which may also raise). -/
structure UiEnv where
  toolsCall : Json → Except PyExc HttpResponse
  chat : Option String → String → List UiMessage → Except PyExc (Option String)

/-- Constant `MCP_SERVER_URL` of the UI script. -/
def UI_MCP_SERVER_URL : String := "http://localhost:3000"

/-- Python `response.raise_for_status()` of the `requests` library: raise
`HTTPError` on a 4xx (client error) or 5xx (server error) status. -/
def raise_for_status (r : HttpResponse) : Except PyExc Unit :=
  if 400 ≤ r.status_code ∧ r.status_code < 500 then
    .error (.HTTPError (toString r.status_code ++ " Client Error for url: " ++
      UI_MCP_SERVER_URL ++ "/tools/call"))
  else if 500 ≤ r.status_code ∧ r.status_code < 600 then
    .error (.HTTPError (toString r.status_code ++ " Server Error for url: " ++
      UI_MCP_SERVER_URL ++ "/tools/call"))
  else
    .ok ()

/-- The body the UI script posts to `/tools/call` for a query. -/
def searchCallBody (query : String) : Json :=
  Json.obj [("name", Json.str "google_search"),
            ("arguments", Json.obj [("query", Json.str query)])]

/-- The `try` block body of `google_search_mcp`. -/
def google_search_mcp_body (env : UiEnv) (query : String) : Except PyExc Json :=
  match env.toolsCall (searchCallBody query) with
  | .error e => .error e
  | .ok response =>
    match raise_for_status response with
    | .error e => .error e
    | .ok _ =>
      match response.json with
      | .error e => .error e
      | .ok result =>
        match pyDictGet result "isError" (Json.bool false) with
        | .error e => .error e
        | .ok isErr =>
          if pyTruthy isErr then
            match resultText result with
            | .error e => .error e
            | .ok t => .ok (Json.str ("Error: " ++ pyStr t))
          else
            resultText result

/-- Function `google_search_mcp(query)` of `prac.py`: post the query to
`/tools/call`, raise for a bad status, decode, and return
`content[0]["text"]` (or an `Error:`-prefixed string when `isError` is
truthy); any exception is caught and rendered as `f"Error: {str(e)}"`.
The second component is the log of outbound calls (the single post attempt,
logged whether or not it raised). -/
def google_search_mcp (env : UiEnv) (query : String) : Json × List UiEvent :=
  (match google_search_mcp_body env query with
   | .ok v => v
   | .error e => Json.str ("Error: " ++ e.pyMessage),
   [UiEvent.toolsCallPost (searchCallBody query)])

/-- The chat-API content value as Python sees it (`None` or a string),
converted to the dynamic value stored in the transcript. -/
def contentToJson : Option String → Json
  | none => Json.null
  | some s => Json.str s

/-- Function `chat_message_llm(role, model, messages)` of `prac.py`: call the chat
API through the module-level client (whose api key is passed explicitly
here, since the embedding has no globals) and return
`response.choices[0].message.content`; any exception is caught and rendered
as `f"Error: {str(e)}"`.  The `role` parameter is accepted and unused,
as in the source. -/
def chat_message_llm (env : UiEnv) (client_api_key : Option String)
    (role : String) (model : String) (messages : List UiMessage) :
    Json × List UiEvent :=
  let _unused := role
  (match env.chat client_api_key model messages with
   | .ok content => contentToJson content
   | .error e => Json.str ("Error: " ++ e.pyMessage),
   [UiEvent.chatCall client_api_key model messages])

/-- The UI's in-memory session state (`st.session_state`). -/
structure SessionState where
  messages : List UiMessage
  google_api_key : String
  google_cse_id : String
  openai_api_key : String
deriving Repr

/-- The three process environment variables the UI script touches. -/
structure EnvVars where
  GOOGLE_API_KEY : Option String
  GOOGLE_CSE_ID : Option String
  OPENAI_API_KEY : Option String
deriving Repr, DecidableEq

/-- The mutable world of the UI process: session state, process
environment, and the api key captured by the module-level
`client = OpenAI(api_key=os.getenv("OPENAI_API_KEY"), ...)` — fixed at
module load, never rebuilt. -/
structure UiWorld where
  sessionState : SessionState
  envVars : EnvVars
  client_api_key : Option String
deriving Repr

/-- Module load plus `init_session_state()` of `prac.py`: the client
captures `os.getenv("OPENAI_API_KEY")` as of process start; session fields
default to the environment values (empty string when absent); the
transcript starts empty. -/
def init_world (startupEnv : EnvVars) : UiWorld :=
  { sessionState :=
      { messages := [],
        google_api_key := startupEnv.GOOGLE_API_KEY.getD "",
        google_cse_id := startupEnv.GOOGLE_CSE_ID.getD "",
        openai_api_key := startupEnv.OPENAI_API_KEY.getD "" },
    envVars := startupEnv,
    client_api_key := startupEnv.OPENAI_API_KEY }

/-- The `Save Settings` button handler of `prac.py`: overwrite the three
session-state fields and the three process environment variables with the
entered values.  The module-level client is not touched. -/
def save_settings (w : UiWorld)
    (google_api_key google_cse_id openai_api_key : String) : UiWorld :=
  { w with
    sessionState :=
      { w.sessionState with
        google_api_key := google_api_key,
        google_cse_id := google_cse_id,
        openai_api_key := openai_api_key },
    envVars :=
      { GOOGLE_API_KEY := some google_api_key,
        GOOGLE_CSE_ID := some google_cse_id,
        OPENAI_API_KEY := some openai_api_key } }

/-- One user turn of `main()` in `prac.py` (the body of
`if prompt := st.chat_input(...)`): append the user message; if the
lowercased prompt starts with `search:`, send `prompt[7:].strip()` straight
to the sidecar and append its result as the assistant turn; otherwise
rebuild the message list and ask the chat API, appending its answer.
Returns the new world and the log of outbound calls. -/
def ui_turn (env : UiEnv) (w : UiWorld) (prompt : String) :
    UiWorld × List UiEvent :=
  let st1 : SessionState :=
    { w.sessionState with
      messages := w.sessionState.messages ++ [{ role := "user", content := Json.str prompt }] }
  if pyStartsWith (pyLower prompt) "search:" then
    let query := pyStrip (pySlice prompt 7)
    let (search_result, events) := google_search_mcp env query
    let st2 : SessionState :=
      { st1 with messages := st1.messages ++ [{ role := "assistant", content := search_result }] }
    let w2 : UiWorld := { w with sessionState := st2 }
    (w2, events)
  else
    let msgs : List UiMessage :=
      st1.messages.map (fun m => { role := m.role, content := m.content })
    let (msg_llm, events) := chat_message_llm env w.client_api_key "assistant" "gpt-3.5-turbo" msgs
    let st2 : SessionState :=
      { st1 with messages := st1.messages ++ [{ role := "assistant", content := msg_llm }] }
    let w2 : UiWorld := { w with sessionState := st2 }
    (w2, events)

/-! ### Concrete test environments used by witnesses and counterexamples -/

/-- A CLI environment whose sidecar rejects every request. -/
def cliErrEnv : Env :=
  { toolsResp := { status_code := 500, text := "boom", jsonBody := .error "not json" },
    runResp := fun _ _ => { status_code := 503, text := "kaboom", jsonBody := .error "not json" },
    chat := fun _ => .ok { content := some "ok", tool_calls := [] },
    jsonLoads := fun _ => .ok Json.null }

/-- Whether a computation raised the generic `Exception` class. -/
def raisedGenericException {α : Type} : Except PyExc α → Bool
  | .error (.Exception _) => true
  | _ => false

/-! ### Claims -/

/-- C4: for every sidecar HTTP response with a non-success status (the
scripts treat every status other than 200 as failure), the catalog-fetch
function and the tool-invoke function each raise an error whose message
carries the original response body verbatim (the fixed prefix followed by
the body text). -/
theorem sidecar_error_carries_body (env : Env) (name : String) (args : Json)
    (h1 : env.toolsResp.status_code ≠ 200)
    (h2 : (env.runResp name args).status_code ≠ 200) :
    (get_search_tool_definition env).fst =
      .error (.Exception (catalogErrorPrefix ++ env.toolsResp.text)) ∧
    (run_search_tool env name args).fst =
      .error (.Exception (runErrorPrefix ++ (env.runResp name args).text)) := by
  constructor
  · simp [get_search_tool_definition, h1]
  · simp [run_search_tool, h2]

/-- Witness for C4 at a concrete environment. -/
theorem sidecar_error_carries_body_witness :
    (get_search_tool_definition cliErrEnv).fst =
      .error (.Exception (catalogErrorPrefix ++ "boom")) ∧
    (run_search_tool cliErrEnv "google_search" Json.null).fst =
      .error (.Exception (runErrorPrefix ++ "kaboom")) :=
  sidecar_error_carries_body cliErrEnv "google_search" Json.null
    (by decide) (by decide)

/-- C5 counterexample: on a non-success sidecar status both functions raise
the generic `Exception` class — neither a `ToolCatalogError` nor a
`ToolInvocationError` is ever raised (no such classes exist in the code). -/
theorem sidecar_errors_not_distinct_types_cex :
    raisedGenericException (get_search_tool_definition cliErrEnv).fst = true ∧
    raisedToolCatalogError (get_search_tool_definition cliErrEnv).fst = false ∧
    raisedGenericException (run_search_tool cliErrEnv "google_search" Json.null).fst = true ∧
    raisedToolInvocationError (run_search_tool cliErrEnv "google_search" Json.null).fst = false := by
  decide

/-- C5 (amended): on a non-success sidecar status the catalog fetch and the
tool invocation each fail with the generic `Exception` class carrying the
raw response body as context; the two failures are distinguished only by
their distinct fixed message prefixes, not by exception type. -/
theorem sidecar_errors_generic_with_distinct_prefixes (env : Env)
    (name : String) (args : Json)
    (h1 : env.toolsResp.status_code ≠ 200)
    (h2 : (env.runResp name args).status_code ≠ 200) :
    (get_search_tool_definition env).fst =
      .error (.Exception (catalogErrorPrefix ++ env.toolsResp.text)) ∧
    (run_search_tool env name args).fst =
      .error (.Exception (runErrorPrefix ++ (env.runResp name args).text)) ∧
    catalogErrorPrefix ≠ runErrorPrefix := by
  refine ⟨?_, ?_, by decide⟩
  · simp [get_search_tool_definition, h1]
  · simp [run_search_tool, h2]

/-- Witness for the amended C5 at a concrete environment. -/
theorem sidecar_errors_generic_with_distinct_prefixes_witness :
    (get_search_tool_definition cliErrEnv).fst =
      .error (.Exception (catalogErrorPrefix ++ "boom")) ∧
    (run_search_tool cliErrEnv "run_tool" Json.null).fst =
      .error (.Exception (runErrorPrefix ++ "kaboom")) ∧
    catalogErrorPrefix ≠ runErrorPrefix :=
  sidecar_errors_generic_with_distinct_prefixes cliErrEnv "run_tool" Json.null
    (by decide) (by decide)

/-- C8: the Save Settings handler overwrites all three session-state
credentials and all three process environment variables with the entered
values; after the (single-threaded) save every one of the six fields equals
its newly entered value. -/
theorem save_settings_overwrites_all_fields (w : UiWorld)
    (gk cid oak : String) :
    (save_settings w gk cid oak).sessionState.google_api_key = gk ∧
    (save_settings w gk cid oak).sessionState.google_cse_id = cid ∧
    (save_settings w gk cid oak).sessionState.openai_api_key = oak ∧
    (save_settings w gk cid oak).envVars.GOOGLE_API_KEY = some gk ∧
    (save_settings w gk cid oak).envVars.GOOGLE_CSE_ID = some cid ∧
    (save_settings w gk cid oak).envVars.OPENAI_API_KEY = some oak :=
  ⟨rfl, rfl, rfl, rfl, rfl, rfl⟩

/-- A UI environment whose sidecar answers every `/tools/call` with one
successful text result and whose chat API always answers. -/
def uiOkEnv : UiEnv :=
  { toolsCall := fun _ => .ok
      { status_code := 200, text := "",
        jsonBody := .ok (Json.obj [("isError", Json.bool false),
          ("content", Json.arr [Json.obj [("text", Json.str "Sunny, 22C")]])]) },
    chat := fun _ _ _ => .ok (some "hello there") }

/-- The UI world after module load with a fixed startup environment. -/
def uiStartWorld : UiWorld :=
  init_world { GOOGLE_API_KEY := none, GOOGLE_CSE_ID := none,
               OPENAI_API_KEY := some "sk-boot" }

/-- C9: the UI transcript is mutated only by appending — every user turn,
on either code path, extends the existing message list with exactly one
user message followed by one assistant message, leaving every existing
entry untouched. -/
theorem ui_transcript_append_only (env : UiEnv) (w : UiWorld) (prompt : String) :
    ∃ a : Json,
      (ui_turn env w prompt).fst.sessionState.messages =
        w.sessionState.messages ++
          [{ role := "user", content := Json.str prompt },
           { role := "assistant", content := a }] := by
  unfold ui_turn
  by_cases h : pyStartsWith (pyLower prompt) "search:" = true
  · refine ⟨(google_search_mcp env (pyStrip (pySlice prompt 7))).fst, ?_⟩
    simp [h]
  · simp only [Bool.not_eq_true] at h
    refine ⟨(chat_message_llm env w.client_api_key "assistant" "gpt-3.5-turbo"
      ((w.sessionState.messages ++
        [({ role := "user", content := Json.str prompt } : UiMessage)]).map
          (fun (m : UiMessage) =>
            ({ role := m.role, content := m.content } : UiMessage)))).fst, ?_⟩
    simp [h]

/-- C3: for every UI prompt whose case-insensitive prefix is `search:`, the
turn never calls the chat-completion API — the single outbound call is the
sidecar post whose query is the remainder of the prompt after the prefix
(whitespace-stripped, as `prompt[7:].strip()` computes it), and the
sidecar's result is appended as the assistant turn. -/
theorem search_prefix_never_calls_chat (env : UiEnv) (w : UiWorld)
    (prompt : String)
    (h : pyStartsWith (pyLower prompt) "search:" = true) :
    (ui_turn env w prompt).snd =
      [UiEvent.toolsCallPost (searchCallBody (pyStrip (pySlice prompt 7)))] ∧
    (ui_turn env w prompt).snd.filter UiEvent.isChatCall = [] ∧
    (ui_turn env w prompt).fst.sessionState.messages =
      w.sessionState.messages ++
        [{ role := "user", content := Json.str prompt },
         { role := "assistant",
           content := (google_search_mcp env (pyStrip (pySlice prompt 7))).fst }] := by
  refine ⟨?_, ?_, ?_⟩ <;>
    simp [ui_turn, h, google_search_mcp, UiEvent.isChatCall]

/-- Witness for C3 at a concrete environment and prompt. -/
theorem search_prefix_never_calls_chat_witness :
    (ui_turn uiOkEnv uiStartWorld "SEARCH: lean papers").snd =
      [UiEvent.toolsCallPost (searchCallBody (pyStrip (pySlice "SEARCH: lean papers" 7)))] ∧
    (ui_turn uiOkEnv uiStartWorld "SEARCH: lean papers").snd.filter
      UiEvent.isChatCall = [] ∧
    (ui_turn uiOkEnv uiStartWorld "SEARCH: lean papers").fst.sessionState.messages =
      uiStartWorld.sessionState.messages ++
        [{ role := "user", content := Json.str "SEARCH: lean papers" },
         { role := "assistant",
           content := (google_search_mcp uiOkEnv (pyStrip (pySlice "SEARCH: lean papers" 7))).fst }] :=
  search_prefix_never_calls_chat uiOkEnv uiStartWorld "SEARCH: lean papers"
    (by decide)

/-- C10: the credential the chat path uses is the one captured by the
module-level client at process start: `init_world` captures the startup
`OPENAI_API_KEY`, `save_settings` never changes the captured key, and the
chat call of a non-search turn after any Save Settings still carries the
startup-time key — not the newly saved one. -/
theorem chat_uses_startup_key_despite_save (e : EnvVars)
    (gk cid oak : String) (env : UiEnv) (w : UiWorld) (prompt : String)
    (h : pyStartsWith (pyLower prompt) "search:" = false) :
    (init_world e).client_api_key = e.OPENAI_API_KEY ∧
    (save_settings w gk cid oak).client_api_key = w.client_api_key ∧
    (ui_turn env (save_settings (init_world e) gk cid oak) prompt).snd =
      [UiEvent.chatCall e.OPENAI_API_KEY "gpt-3.5-turbo"
        [{ role := "user", content := Json.str prompt }]] := by
  refine ⟨rfl, rfl, ?_⟩
  simp [ui_turn, h, chat_message_llm, save_settings, init_world]

/-- Witness for C10: after saving a fresh key `sk-new`, the chat call still
carries the startup key `sk-boot`. -/
theorem chat_uses_startup_key_despite_save_witness :
    (init_world { GOOGLE_API_KEY := none, GOOGLE_CSE_ID := none,
                  OPENAI_API_KEY := some "sk-boot" }).client_api_key =
      some "sk-boot" ∧
    (save_settings uiStartWorld "g" "c" "sk-new").client_api_key =
      uiStartWorld.client_api_key ∧
    (ui_turn uiOkEnv
        (save_settings
          (init_world { GOOGLE_API_KEY := none, GOOGLE_CSE_ID := none,
                        OPENAI_API_KEY := some "sk-boot" }) "g" "c" "sk-new")
        "hello").snd =
      [UiEvent.chatCall (some "sk-boot") "gpt-3.5-turbo"
        [{ role := "user", content := Json.str "hello" }]] :=
  chat_uses_startup_key_despite_save
    { GOOGLE_API_KEY := none, GOOGLE_CSE_ID := none,
      OPENAI_API_KEY := some "sk-boot" }
    "g" "c" "sk-new" uiOkEnv uiStartWorld "hello" (by decide)

/-- C7: for the UI input `search: current weather in Seoul`, exactly one
sidecar call is made — to `/tools/call` with body
`{name: "google_search", arguments: {query}}` — and the assistant output
equals `content[0].text` of the sidecar's successful JSON response. -/
theorem search_seoul_scenario (env : UiEnv) (w : UiWorld) (t : String)
    (resp : HttpResponse)
    (hcall : env.toolsCall (searchCallBody "current weather in Seoul") =
      .ok resp)
    (hstatus : resp.status_code = 200)
    (hjson : resp.jsonBody = .ok (Json.obj
      [("isError", Json.bool false),
       ("content", Json.arr [Json.obj [("text", Json.str t)]])])) :
    (ui_turn env w "search: current weather in Seoul").snd =
      [UiEvent.toolsCallPost (Json.obj
        [("name", Json.str "google_search"),
         ("arguments", Json.obj
           [("query", Json.str "current weather in Seoul")])])] ∧
    (ui_turn env w "search: current weather in Seoul").fst.sessionState.messages =
      w.sessionState.messages ++
        [{ role := "user", content := Json.str "search: current weather in Seoul" },
         { role := "assistant", content := Json.str t }] := by
  have hpre : pyStartsWith (pyLower "search: current weather in Seoul") "search:" = true := by
    decide
  have hq : pyStrip (pySlice "search: current weather in Seoul" 7) =
      "current weather in Seoul" := by decide
  have hbody : google_search_mcp_body env "current weather in Seoul" =
      .ok (Json.str t) := by
    simp [google_search_mcp_body, hcall, raise_for_status, hstatus,
      HttpResponse.json, hjson, pyDictGet, pyTruthy, resultText,
      pySubscriptKey, pySubscriptIdx, List.lookup]
  constructor
  · simp [ui_turn, hpre, hq, google_search_mcp, searchCallBody]
  · simp [ui_turn, hpre, hq, google_search_mcp, hbody]

/-- Witness for C7 at a concrete environment. -/
theorem search_seoul_scenario_witness :
    (ui_turn uiOkEnv uiStartWorld "search: current weather in Seoul").snd =
      [UiEvent.toolsCallPost (Json.obj
        [("name", Json.str "google_search"),
         ("arguments", Json.obj
           [("query", Json.str "current weather in Seoul")])])] ∧
    (ui_turn uiOkEnv uiStartWorld
        "search: current weather in Seoul").fst.sessionState.messages =
      uiStartWorld.sessionState.messages ++
        [{ role := "user", content := Json.str "search: current weather in Seoul" },
         { role := "assistant", content := Json.str "Sunny, 22C" }] :=
  search_seoul_scenario uiOkEnv uiStartWorld "Sunny, 22C"
    { status_code := 200, text := "",
      jsonBody := .ok (Json.obj [("isError", Json.bool false),
        ("content", Json.arr [Json.obj [("text", Json.str "Sunny, 22C")]])]) }
    rfl rfl rfl

/-- C6: the CLI shell is a read-eval-print loop that stops processing
exactly at an input whose lowercasing is the literal `exit` or `quit`; for
every other input the turn runs, any exception the orchestrator raises is
rendered as a printed error line, and the loop continues with the remaining
input — it never propagates the exception. -/
theorem cli_repl_loop_behaviour :
    (∀ (env : Env) (line : String) (rest : List String),
        ["exit", "quit"].contains (pyLower line) = true →
        main_loop env (line :: rest) = []) ∧
    (∀ (env : Env) (line : String) (rest : List String),
        ["exit", "quit"].contains (pyLower line) = false →
        main_loop env (line :: rest) =
          turn_output env line ++ main_loop env rest) ∧
    (∀ (env : Env) (line : String) (e : PyExc),
        (chat_with_tools env line).fst = Except.error e →
        turn_output env line = ["\n오류: " ++ e.pyMessage]) := by
  refine ⟨?_, ?_, ?_⟩
  · intro env line rest h
    simp only [main_loop, h]
    simp
  · intro env line rest h
    simp only [main_loop, h]
    simp
  · intro env line e h
    simp [turn_output, h]

/-- Witness for C6: with a failing sidecar, `EXIT` stops the loop, a
regular line produces a printed error and the loop goes on. -/
theorem cli_repl_loop_behaviour_witness :
    main_loop cliErrEnv ["EXIT", "hello"] = [] ∧
    main_loop cliErrEnv ["hello"] =
      turn_output cliErrEnv "hello" ++ main_loop cliErrEnv [] ∧
    turn_output cliErrEnv "hello" =
      ["\n오류: " ++ (PyExc.Exception (catalogErrorPrefix ++ "boom")).pyMessage] :=
  ⟨cli_repl_loop_behaviour.1 cliErrEnv "EXIT" ["hello"] (by decide),
   cli_repl_loop_behaviour.2.1 cliErrEnv "hello" [] (by decide),
   cli_repl_loop_behaviour.2.2 cliErrEnv "hello"
     (PyExc.Exception (catalogErrorPrefix ++ "boom")) rfl⟩

/-- A CLI environment whose model answers directly, without tool calls. -/
def cliPlainEnv : Env :=
  { toolsResp := { status_code := 200, text := "[]", jsonBody := .ok (Json.arr []) },
    runResp := fun _ _ => { status_code := 200, text := "", jsonBody := .ok Json.null },
    chat := fun _ =>
      .ok { content := some "Paris is the capital of France.", tool_calls := [] },
    jsonLoads := fun _ => .ok Json.null }

/-- C2: when the first chat-completion response contains no tool calls,
`chat_with_tools` makes exactly one chat-API call, performs no sidecar tool
invocation, and returns that response's content unchanged. -/
theorem chat_no_tool_calls_single_round (env : Env) (u : String)
    (tj : Json) (m1 : ChatMsg)
    (hts : env.toolsResp.status_code = 200)
    (htj : env.toolsResp.jsonBody = .ok tj)
    (h1 : env.chat (first_request tj u) = .ok m1)
    (hno : m1.tool_calls = []) :
    chat_with_tools env u =
      (.ok m1.content,
       [Event.sidecarGet (MCP_SERVER_URL ++ "/openai/tools"),
        Event.chatCall (first_request tj u)]) ∧
    ((chat_with_tools env u).snd.filter Event.isChatCall).length = 1 ∧
    (chat_with_tools env u).snd.filter Event.isSidecarPost = [] := by
  have hmain : chat_with_tools env u =
      (.ok m1.content,
       [Event.sidecarGet (MCP_SERVER_URL ++ "/openai/tools"),
        Event.chatCall (first_request tj u)]) := by
    simp [chat_with_tools, get_search_tool_definition, hts,
      HttpResponse.json, htj, h1, hno]
  refine ⟨hmain, ?_, ?_⟩ <;>
    simp [hmain, Event.isChatCall, Event.isSidecarPost]

/-- Witness for C2 on the direct-answer scenario. -/
theorem chat_no_tool_calls_single_round_witness :
    chat_with_tools cliPlainEnv "What is the capital of France?" =
      (.ok (some "Paris is the capital of France."),
       [Event.sidecarGet (MCP_SERVER_URL ++ "/openai/tools"),
        Event.chatCall (first_request (Json.arr []) "What is the capital of France?")]) ∧
    ((chat_with_tools cliPlainEnv "What is the capital of France?").snd.filter
      Event.isChatCall).length = 1 ∧
    (chat_with_tools cliPlainEnv "What is the capital of France?").snd.filter
      Event.isSidecarPost = [] :=
  chat_no_tool_calls_single_round cliPlainEnv "What is the capital of France?"
    (Json.arr [])
    { content := some "Paris is the capital of France.", tool_calls := [] }
    rfl rfl rfl rfl

/-- The tool call the model of `cliToolEnv` requests. -/
def tc0 : ToolCallReq :=
  { id := "call_1", function_name := "google_search",
    function_arguments := "\x7b\x22query\x22: \x22Seoul\x22\x7d" }

/-- A CLI environment whose model requests exactly one tool call on the
first round (the request carrying tools) and answers on the second. -/
def cliToolEnv : Env :=
  { toolsResp := { status_code := 200, text := "[]", jsonBody := .ok (Json.arr []) },
    runResp := fun _ _ =>
      { status_code := 200, text := "",
        jsonBody := .ok (Json.str "Sunny in Seoul") },
    chat := fun req =>
      if req.tools.isSome then
        .ok { content := none, tool_calls := [tc0] }
      else
        .ok { content := some "It is sunny in Seoul.", tool_calls := [] },
    jsonLoads := fun _ => .ok (Json.obj [("query", Json.str "Seoul")]) }

/-- C1: when the first chat-completion response contains exactly one tool
call (and the tool round succeeds), `chat_with_tools` performs exactly one
sidecar invocation and exactly one second chat-API call; the message list
passed to the second call is, in order, system, user, assistant (carrying
the tool calls), tool (keyed by the originating call id); no tools are
offered on the second call (`second_request` has `tools := none`), and the
second response's content is the final answer. -/
theorem chat_single_tool_call_round_trip (env : Env) (u : String)
    (tj args fr : Json) (tc : ToolCallReq) (m1 m2 : ChatMsg)
    (hts : env.toolsResp.status_code = 200)
    (htj : env.toolsResp.jsonBody = .ok tj)
    (h1 : env.chat (first_request tj u) = .ok m1)
    (htc : m1.tool_calls = [tc])
    (hargs : env.jsonLoads tc.function_arguments = .ok args)
    (hrs : (env.runResp tc.function_name args).status_code = 200)
    (hrj : (env.runResp tc.function_name args).jsonBody = .ok fr)
    (h2 : env.chat (second_request
        [system_message, user_message_of u, assistant_tool_message [tc],
         tool_result_message tc.id (dumps fr)]) = .ok m2) :
    chat_with_tools env u =
      (.ok m2.content,
       [Event.sidecarGet (MCP_SERVER_URL ++ "/openai/tools"),
        Event.chatCall (first_request tj u),
        Event.sidecarPost (MCP_SERVER_URL ++ "/openai/run") tc.function_name args,
        Event.chatCall (second_request
          [system_message, user_message_of u, assistant_tool_message [tc],
           tool_result_message tc.id (dumps fr)])]) ∧
    ((chat_with_tools env u).snd.filter Event.isSidecarPost).length = 1 ∧
    ((chat_with_tools env u).snd.filter Event.isChatCall).length = 2 := by
  have hmain : chat_with_tools env u =
      (.ok m2.content,
       [Event.sidecarGet (MCP_SERVER_URL ++ "/openai/tools"),
        Event.chatCall (first_request tj u),
        Event.sidecarPost (MCP_SERVER_URL ++ "/openai/run") tc.function_name args,
        Event.chatCall (second_request
          [system_message, user_message_of u, assistant_tool_message [tc],
           tool_result_message tc.id (dumps fr)])]) := by
    simp [chat_with_tools, get_search_tool_definition, hts,
      HttpResponse.json, htj, h1, htc, run_tool_calls, hargs,
      run_search_tool, hrs, hrj, h2]
  refine ⟨hmain, ?_, ?_⟩ <;>
    simp [hmain, Event.isChatCall, Event.isSidecarPost]

/-- Witness for C1 on a one-tool-call scenario. -/
theorem chat_single_tool_call_round_trip_witness :
    chat_with_tools cliToolEnv "What is the weather in Seoul?" =
      (.ok (some "It is sunny in Seoul."),
       [Event.sidecarGet (MCP_SERVER_URL ++ "/openai/tools"),
        Event.chatCall (first_request (Json.arr []) "What is the weather in Seoul?"),
        Event.sidecarPost (MCP_SERVER_URL ++ "/openai/run") "google_search"
          (Json.obj [("query", Json.str "Seoul")]),
        Event.chatCall (second_request
          [system_message, user_message_of "What is the weather in Seoul?",
           assistant_tool_message [tc0],
           tool_result_message "call_1" (dumps (Json.str "Sunny in Seoul"))])]) ∧
    ((chat_with_tools cliToolEnv "What is the weather in Seoul?").snd.filter
      Event.isSidecarPost).length = 1 ∧
    ((chat_with_tools cliToolEnv "What is the weather in Seoul?").snd.filter
      Event.isChatCall).length = 2 :=
  chat_single_tool_call_round_trip cliToolEnv "What is the weather in Seoul?"
    (Json.arr []) (Json.obj [("query", Json.str "Seoul")])
    (Json.str "Sunny in Seoul") tc0
    { content := none, tool_calls := [tc0] }
    { content := some "It is sunny in Seoul.", tool_calls := [] }
    rfl rfl rfl rfl rfl rfl rfl rfl
